import Mathlib

/-!
Verification of the Galactic Taxi game core: the fixed-timestep scheduler
(GameEngine.gameLoop) and the taxi flight-physics update (updateGame),
shallowly embedded over exact rational arithmetic.  Times are milliseconds
unless noted; dt arguments to the update hook are seconds.
-/

namespace XPGame

/-- One observable hook invocation made by the scheduler during a single
animation-frame callback: an update-hook call carrying its dt argument in
seconds, or a render-hook call carrying its interpolation factor alpha. -/
inductive Event where
  | update (dt : ℚ) : Event
  | render (alpha : ℚ) : Event
deriving DecidableEq

/-- The while-loop of GameEngine.gameLoop: while the accumulator is at least
updateTime and fewer than maxFrameSkip updates have run this frame, invoke
the update hook with updateTime/1000 seconds and subtract updateTime from the
accumulator.  The fuel argument is the number of loop iterations still
allowed (maxFrameSkip minus the updates already run).  Returns the final
accumulator together with the ordered list of update-hook events. -/
def runUpdates (updateTime : ℚ) : ℕ → ℚ → ℚ × List Event
  | 0, acc => (acc, [])
  | fuel + 1, acc =>
    if updateTime ≤ acc then
      let r := runUpdates updateTime fuel (acc - updateTime)
      (r.1, Event.update (updateTime / 1000) :: r.2)
    else
      (acc, [])

/-- The spiral-of-death guard of GameEngine.gameLoop: if the accumulator
still exceeds updateTime * maxFrameSkip after the update loop, clamp it down
to that ceiling. -/
def clampAcc (updateTime : ℚ) (maxFrameSkip : ℕ) (a : ℚ) : ℚ :=
  if a > updateTime * maxFrameSkip then updateTime * maxFrameSkip else a

/-- Result of one GameEngine.gameLoop callback: the accumulator value
carried to the next frame, and the hook invocations made during the
callback, in order. -/
structure FrameResult where
  accumulator : ℚ
  trace : List Event
deriving DecidableEq

/-- One unpaused GameEngine.gameLoop callback, given the accumulator carried
in from the previous frame and this frame's delta (currentTime minus
lastFrameTime): add the delta to the accumulator, run the bounded update
loop, clamp the accumulator to updateTime * maxFrameSkip, then invoke the
render hook exactly once with alpha = accumulator / updateTime.  The stats
bookkeeping of the source is observational only and not modelled. -/
def gameLoop (updateTime : ℚ) (maxFrameSkip : ℕ) (acc delta : ℚ) : FrameResult :=
  { accumulator := clampAcc updateTime maxFrameSkip (runUpdates updateTime maxFrameSkip (acc + delta)).1
    trace := (runUpdates updateTime maxFrameSkip (acc + delta)).2 ++
      [Event.render (clampAcc updateTime maxFrameSkip (runUpdates updateTime maxFrameSkip (acc + delta)).1 / updateTime)] }

/-- The accumulator after the scheduler processes a list of frame deltas in
order, starting from accumulator acc (GameEngine.start resets it to 0). -/
def runFrames (updateTime : ℚ) (maxFrameSkip : ℕ) : ℚ → List ℚ → ℚ
  | acc, [] => acc
  | acc, d :: ds => runFrames updateTime maxFrameSkip (gameLoop updateTime maxFrameSkip acc d).accumulator ds

/-- The taxi entity state mutated by updateGame: centre position in pixels,
velocity in pixels per second, and the ground, hover, facing and
landing-gear flags. -/
structure Taxi where
  x : ℚ
  y : ℚ
  vx : ℚ
  vy : ℚ
  onGround : Bool
  hoverMode : Bool
  facingRight : Bool
  landingGear : Bool
deriving DecidableEq

/-- The held-key input mapping for the four directional keys, read but never
written by updateGame. -/
structure Keys where
  w : Bool
  s : Bool
  a : Bool
  d : Bool
deriving DecidableEq

/-- The physics knobs of the GameEngine config consumed by updateGame.
hoverThrust is nullable in the source; none means auto-derive from gravity. -/
structure PhysicsConfig where
  gravity : ℚ
  pixelsPerMeter : ℚ
  thrusterForce : ℚ
  regularFlightThrust : ℚ
  hoverThrust : Option ℚ
  hoverDamping : ℚ
deriving DecidableEq

/-- The dimensions read by updateGame each call: window.innerWidth,
window.innerHeight, and the taxi sprite offsetWidth and offsetHeight. -/
structure Screen where
  screenWidth : ℚ
  screenHeight : ℚ
  taxiWidth : ℚ
  taxiHeight : ℚ
deriving DecidableEq

/-- The hover-mode damping applied per axis in updateGame: if the velocity
is positive, subtract rate * dt and clamp at zero if the result went
negative; if negative, add rate * dt and clamp at zero if the result went
positive; if already zero, leave it alone. -/
def damp (rate dt v : ℚ) : ℚ :=
  if 0 < v then
    if v - rate * dt < 0 then 0 else v - rate * dt
  else if v < 0 then
    if 0 < v + rate * dt then 0 else v + rate * dt
  else v

/-- The vertical-velocity computation of updateGame, before integration.
Hover mode: damp vy, subtract hoverThrust * dt (auto-derived as
gravity * pixelsPerMeter when the config value is null), apply the w and s
thruster keys, then add gravity.  Regular mode: subtract
regularFlightThrust * dt, apply the w and s keys, then add gravity. -/
def newVy (cfg : PhysicsConfig) (keys : Keys) (dt : ℚ) (t : Taxi) : ℚ :=
  if t.hoverMode then
    let v1 := damp cfg.hoverDamping dt t.vy
    let v2 := v1 - (cfg.hoverThrust.getD (cfg.gravity * cfg.pixelsPerMeter)) * dt
    let v3 := if keys.w then v2 - cfg.thrusterForce * dt else v2
    let v4 := if keys.s then v3 + cfg.thrusterForce * dt else v3
    v4 + cfg.gravity * cfg.pixelsPerMeter * dt
  else
    let v1 := t.vy - cfg.regularFlightThrust * dt
    let v2 := if keys.w then v1 - cfg.thrusterForce * dt else v1
    let v3 := if keys.s then v2 + cfg.thrusterForce * dt else v2
    v3 + cfg.gravity * cfg.pixelsPerMeter * dt

/-- The horizontal-velocity computation of updateGame, before integration:
in hover mode vx is first damped, then the a and d thruster keys apply in
both modes. -/
def newVx (cfg : PhysicsConfig) (keys : Keys) (dt : ℚ) (t : Taxi) : ℚ :=
  let v0 := if t.hoverMode then damp cfg.hoverDamping dt t.vx else t.vx
  let v1 := if keys.a then v0 - cfg.thrusterForce * dt else v0
  if keys.d then v1 + cfg.thrusterForce * dt else v1

/-- The facing flag after updateGame: the a key sets facing left, then the
d key sets facing right (so d wins when both are held, matching the source
statement order in both modes). -/
def newFacing (keys : Keys) (b : Bool) : Bool :=
  if keys.d then true else if keys.a then false else b

/-- The force-composition phase of updateGame (everything before the
position integration): vx, vy and facingRight are updated, all other fields
untouched.  The vy, vx and facing threads of the source are interleaved
textually but data-independent, so they are modelled as three parallel
field computations. -/
def applyForces (cfg : PhysicsConfig) (keys : Keys) (dt : ℚ) (t : Taxi) : Taxi :=
  { t with
    vx := newVx cfg keys dt t
    vy := newVy cfg keys dt t
    facingRight := newFacing keys t.facingRight }

/-- The symplectic-Euler position integration of updateGame: position is
advanced by the already-updated velocity. -/
def integrate (dt : ℚ) (t : Taxi) : Taxi :=
  { t with x := t.x + t.vx * dt, y := t.y + t.vy * dt }

/-- The horizontal boundary collision of updateGame: clamp x to the left
boundary taxiWidth/2 or the right boundary screenWidth - taxiWidth/2 and
zero vx on either clamp. -/
def clampX (env : Screen) (t : Taxi) : Taxi :=
  if t.x < env.taxiWidth / 2 then
    { t with x := env.taxiWidth / 2, vx := 0 }
  else if env.screenWidth - env.taxiWidth / 2 < t.x then
    { t with x := env.screenWidth - env.taxiWidth / 2, vx := 0 }
  else t

/-- The vertical boundary collision of updateGame: clamp y to the top
boundary 0 (zeroing vy, onGround false) or, when y has reached
screenHeight - taxiHeight, to that bottom boundary (zeroing vy, onGround
true); otherwise onGround is set to false. -/
def clampY (env : Screen) (t : Taxi) : Taxi :=
  if t.y < 0 then
    { t with y := 0, vy := 0, onGround := false }
  else if env.screenHeight - env.taxiHeight ≤ t.y then
    { t with y := env.screenHeight - env.taxiHeight, vy := 0, onGround := true }
  else
    { t with onGround := false }

/-- One call of updateGame: force composition, then integration, then the
horizontal and vertical boundary collisions, in source order. -/
def updateGame (cfg : PhysicsConfig) (env : Screen) (keys : Keys) (dt : ℚ) (t : Taxi) : Taxi :=
  clampY env (clampX env (integrate dt (applyForces cfg keys dt t)))

/-- The trajectory of repeated updateGame calls with a constant held-key
set and fixed dt, from a given initial taxi state. -/
def trajectory (cfg : PhysicsConfig) (env : Screen) (keys : Keys) (dt : ℚ) (t : Taxi) : ℕ → Taxi
  | 0 => t
  | n + 1 => updateGame cfg env keys dt (trajectory cfg env keys dt t n)

/-- The key symbols consumed by the initGame keyboard handlers (arrow keys
are mapped onto w, s, a, d by the handler before reaching this model). -/
inductive GKey where
  | w
  | s
  | a
  | d
  | h
  | space
  | p
deriving DecidableEq

/-- The whole-game state touched by the input handlers and the update tick:
the taxi entity, the held-key mapping, and the engine lifecycle flags. -/
structure SysState where
  taxi : Taxi
  keys : Keys
  isRunning : Bool
  isPaused : Bool
deriving DecidableEq

/-- An input or scheduler event delivered while the game screen is active:
a discrete key-down event, a key-up event, or one fixed-step update tick. -/
inductive GameEvent where
  | keyDown (k : GKey) : GameEvent
  | keyUp (k : GKey) : GameEvent
  | tick (dt : ℚ) : GameEvent
deriving DecidableEq

/-- The initGame keydown handler: p toggles pause through pause/resume
(each a no-op unless running), h flips hoverMode and space flips
landingGear when the engine is running and not paused, and the w, s, a, d
keys set their held flag under the same guard. -/
def keyDownEvent (st : SysState) (k : GKey) : SysState :=
  match k with
  | GKey.p =>
    if st.isPaused then
      if st.isRunning then { st with isPaused := false } else st
    else if st.isRunning then { st with isPaused := true } else st
  | GKey.h =>
    if st.isRunning && !st.isPaused then
      { st with taxi := { st.taxi with hoverMode := !st.taxi.hoverMode } }
    else st
  | GKey.space =>
    if st.isRunning && !st.isPaused then
      { st with taxi := { st.taxi with landingGear := !st.taxi.landingGear } }
    else st
  | GKey.w =>
    if st.isRunning && !st.isPaused then { st with keys := { st.keys with w := true } } else st
  | GKey.s =>
    if st.isRunning && !st.isPaused then { st with keys := { st.keys with s := true } } else st
  | GKey.a =>
    if st.isRunning && !st.isPaused then { st with keys := { st.keys with a := true } } else st
  | GKey.d =>
    if st.isRunning && !st.isPaused then { st with keys := { st.keys with d := true } } else st

/-- The initGame keyup handler: releasing w, s, a or d clears its held flag
unconditionally; the other keys have no keyup action. -/
def keyUpEvent (st : SysState) (k : GKey) : SysState :=
  match k with
  | GKey.w => { st with keys := { st.keys with w := false } }
  | GKey.s => { st with keys := { st.keys with s := false } }
  | GKey.a => { st with keys := { st.keys with a := false } }
  | GKey.d => { st with keys := { st.keys with d := false } }
  | _ => st

/-- One fixed-step update tick as driven by the scheduler: when the engine
is running and not paused, the onUpdate hook calls updateGame on the taxi
with the current held-key mapping; otherwise nothing happens. -/
def tickEvent (cfg : PhysicsConfig) (env : Screen) (dt : ℚ) (st : SysState) : SysState :=
  if st.isRunning && !st.isPaused then
    { st with taxi := updateGame cfg env st.keys dt st.taxi }
  else st

/-- Dispatch one event to its handler. -/
def stepEvent (cfg : PhysicsConfig) (env : Screen) (st : SysState) : GameEvent → SysState
  | GameEvent.keyDown k => keyDownEvent st k
  | GameEvent.keyUp k => keyUpEvent st k
  | GameEvent.tick dt => tickEvent cfg env dt st

/-- Process a list of events in order. -/
def runEvents (cfg : PhysicsConfig) (env : Screen) : SysState → List GameEvent → SysState
  | st, [] => st
  | st, e :: es => runEvents cfg env (stepEvent cfg env st e) es

/-- The numeric falsy-coalescing of the GameEngine constructor: the
JavaScript expression (config.field || default) yields the default when the
field is absent or 0 (both falsy), and the given value otherwise. -/
def numOr (v : Option ℚ) (d : ℚ) : ℚ :=
  match v with
  | none => d
  | some x => if x = 0 then d else x

/-- The constructor arguments of GameEngine relevant to the timing setup;
none models an absent field. -/
structure EngineConfig where
  targetFPS : Option ℚ
  targetUPS : Option ℚ
  maxFrameSkip : Option ℚ
deriving DecidableEq

/-- The timing fields the GameEngine constructor derives. -/
structure GameEngine where
  targetFPS : ℚ
  targetUPS : ℚ
  maxFrameSkip : ℚ
  frameTime : ℚ
  updateTime : ℚ
deriving DecidableEq

/-- The GameEngine constructor: each knob is defaulted through || and then
frameTime = 1000/targetFPS and updateTime = 1000/targetUPS are computed from
the defaulted values. -/
def mkGameEngine (c : EngineConfig) : GameEngine :=
  { targetFPS := numOr c.targetFPS 60
    targetUPS := numOr c.targetUPS 60
    maxFrameSkip := numOr c.maxFrameSkip 5
    frameTime := 1000 / numOr c.targetFPS 60
    updateTime := 1000 / numOr c.targetUPS 60 }

/-- The physics configuration built by initGame (hoverThrust null, so it is
auto-derived from gravity inside updateGame). -/
def testCfg : PhysicsConfig :=
  { gravity := 981 / 100
    pixelsPerMeter := 100
    thrusterForce := 1500
    regularFlightThrust := 500
    hoverThrust := none
    hoverDamping := 800 }

/-- A nondegenerate screen: a 1920 x 1080 window with a 64 x 32 taxi
sprite. -/
def testEnv : Screen :=
  { screenWidth := 1920
    screenHeight := 1080
    taxiWidth := 64
    taxiHeight := 32 }

/-- A degenerate screen whose sprite is exactly as tall as the window, so
the top and bottom boundaries coincide at 0. -/
def degenEnv : Screen :=
  { screenWidth := 800
    screenHeight := 32
    taxiWidth := 64
    taxiHeight := 32 }

/-- No directional key held. -/
def noKeys : Keys :=
  { w := false, s := false, a := false, d := false }

/-- The w and d keys held. -/
def keysWD : Keys :=
  { w := true, s := false, a := false, d := true }

/-- A taxi in regular mode at rest above the ground. -/
def restTaxi : Taxi :=
  { x := 960, y := 100, vx := 0, vy := 0, onGround := false, hoverMode := false
    facingRight := false, landingGear := false }

/-- A taxi hovering with zero vertical velocity mid-screen. -/
def hoverTaxi : Taxi :=
  { x := 960, y := 540, vx := 0, vy := 0, onGround := false, hoverMode := true
    facingRight := false, landingGear := false }

/-- A taxi 5 pixels left of the left boundary of testEnv (half sprite width
32), moving further left. -/
def leftTaxi : Taxi :=
  { x := 27, y := 500, vx := -50, vy := 0, onGround := false, hoverMode := false
    facingRight := false, landingGear := false }

/-- A moving taxi used to exercise determinism. -/
def movingTaxi : Taxi :=
  { x := 960, y := 540, vx := 3, vy := -2, onGround := false, hoverMode := false
    facingRight := false, landingGear := false }

/-- A taxi above the top of the screen, about to be clamped to the top
boundary. -/
def aboveTaxi : Taxi :=
  { x := 400, y := -100, vx := 0, vy := 0, onGround := false, hoverMode := false
    facingRight := false, landingGear := false }

/-- A running, unpaused whole-game state. -/
def runningState : SysState :=
  { taxi := restTaxi, keys := noKeys, isRunning := true, isPaused := false }

lemma runUpdates_nonneg (u : ℚ) :
    ∀ (fuel : ℕ) (acc : ℚ), 0 ≤ acc → 0 ≤ (runUpdates u fuel acc).1 := by
  intro fuel
  induction fuel with
  | zero => intro acc h; simpa [runUpdates] using h
  | succ n ih =>
    intro acc h
    by_cases hc : u ≤ acc
    · simpa [runUpdates, hc] using ih (acc - u) (by linarith)
    · simpa [runUpdates, hc] using h

lemma runUpdates_exact (u : ℚ) (hu : 0 < u) :
    ∀ (k fuel : ℕ) (acc : ℚ), k ≤ fuel → (k : ℚ) * u ≤ acc → acc < ((k : ℚ) + 1) * u →
      runUpdates u fuel acc = (acc - (k : ℚ) * u, List.replicate k (Event.update (u / 1000))) := by
  intro k
  induction k with
  | zero =>
    intro fuel acc _ _ hhi
    have hlt : ¬ u ≤ acc := by push_cast at hhi; intro hle; linarith
    cases fuel with
    | zero => simp [runUpdates]
    | succ n => simp [runUpdates, hlt]
  | succ j ih =>
    intro fuel acc hkf hlo hhi
    cases fuel with
    | zero => omega
    | succ n =>
      have hj0 : (0 : ℚ) ≤ (j : ℚ) := Nat.cast_nonneg j
      have hle : u ≤ acc := by
        push_cast at hlo
        nlinarith
      have hrec := ih n (acc - u) (by omega)
        (by push_cast at hlo ⊢; linarith)
        (by push_cast at hhi ⊢; linarith)
      simp only [runUpdates, if_pos hle, hrec, List.replicate_succ]
      congr 1
      push_cast
      ring

lemma runUpdates_sat (u : ℚ) (hu : 0 < u) :
    ∀ (fuel : ℕ) (acc : ℚ), (fuel : ℚ) * u < acc →
      runUpdates u fuel acc = (acc - (fuel : ℚ) * u, List.replicate fuel (Event.update (u / 1000))) := by
  intro fuel
  induction fuel with
  | zero => intro acc _; simp [runUpdates]
  | succ n ih =>
    intro acc hgt
    have hle : u ≤ acc := by
      have hn0 : (0 : ℚ) ≤ (n : ℚ) := Nat.cast_nonneg n
      push_cast at hgt
      nlinarith
    have hrec := ih (acc - u) (by push_cast at hgt ⊢; linarith)
    simp only [runUpdates, if_pos hle, hrec, List.replicate_succ]
    congr 1
    push_cast
    ring

lemma runUpdates_shape (u : ℚ) :
    ∀ (fuel : ℕ) (acc : ℚ), ∃ n ≤ fuel,
      (runUpdates u fuel acc).2 = List.replicate n (Event.update (u / 1000)) := by
  intro fuel
  induction fuel with
  | zero => intro acc; exact ⟨0, le_refl 0, by simp [runUpdates]⟩
  | succ m ih =>
    intro acc
    by_cases hc : u ≤ acc
    · obtain ⟨n, hn, he⟩ := ih (acc - u)
      exact ⟨n + 1, by omega, by simp [runUpdates, hc, he, List.replicate_succ]⟩
    · exact ⟨0, by omega, by simp [runUpdates, hc]⟩

lemma gameLoop_step_bound (u : ℚ) (m : ℕ) (acc d : ℚ) (hu : 0 < u)
    (hacc : 0 ≤ acc) (hd : 0 ≤ d) :
    0 ≤ (gameLoop u m acc d).accumulator ∧ (gameLoop u m acc d).accumulator ≤ u * m := by
  have h1 : 0 ≤ (runUpdates u m (acc + d)).1 :=
    runUpdates_nonneg u m (acc + d) (by linarith)
  have hm : (0 : ℚ) ≤ u * m := by positivity
  unfold gameLoop clampAcc
  by_cases hc : (runUpdates u m (acc + d)).1 > u * m
  · simp [hc, hm]
  · simp only [hc, if_neg, if_false]
    exact ⟨h1, le_of_not_lt hc⟩

/-- Claim C1: for every sequence of non-negative frame deltas processed by
the per-frame callback gameLoop, starting from the accumulator value 0 set
by GameEngine.start, after each callback completes the accumulator lies in
the interval from 0 to updateTime * maxFrameSkip. -/
theorem C1_accumulator_bound (u : ℚ) (m : ℕ) (ds : List ℚ)
    (hu : 0 < u) (hds : ∀ d ∈ ds, 0 ≤ d) :
    0 ≤ runFrames u m 0 ds ∧ runFrames u m 0 ds ≤ u * m := by
  suffices h : ∀ (l : List ℚ) (acc : ℚ), 0 ≤ acc → acc ≤ u * m → (∀ d ∈ l, 0 ≤ d) →
      0 ≤ runFrames u m acc l ∧ runFrames u m acc l ≤ u * m by
    exact h ds 0 (le_refl 0) (by positivity) hds
  intro l
  induction l with
  | nil => intro acc h0 h1 _; exact ⟨h0, h1⟩
  | cons d ds ih =>
    intro acc h0 _ hall
    have hd : 0 ≤ d := hall d (List.mem_cons_self d ds)
    have hstep := gameLoop_step_bound u m acc d hu h0 hd
    exact ih (gameLoop u m acc d).accumulator hstep.1 hstep.2
      (fun x hx => hall x (List.mem_cons_of_mem d hx))

theorem C1_accumulator_bound_witness :
    0 ≤ runFrames 10 5 0 [20, 100, 3, 0] ∧ runFrames 10 5 0 [20, 100, 3, 0] ≤ 10 * (5 : ℕ) :=
  C1_accumulator_bound 10 5 [20, 100, 3, 0] (by norm_num)
    (by intro d hd; fin_cases hd <;> norm_num)

/-- Claim C2: for a single scheduler callback, if the pre-loop accumulator
(incoming accumulator plus frame delta) spans k updateTime intervals with
k at most maxFrameSkip, the callback makes exactly k update-hook calls, each
with dt = updateTime/1000 seconds; if it exceeds maxFrameSkip * updateTime
intervals it makes exactly maxFrameSkip update calls; in every case it makes
exactly one render-hook call, positioned after all update calls. -/
theorem C2_update_render_decoupling (u : ℚ) (m k : ℕ) (acc delta : ℚ) (hu : 0 < u) :
    (k ≤ m → (k : ℚ) * u ≤ acc + delta → acc + delta < ((k : ℚ) + 1) * u →
      (gameLoop u m acc delta).trace =
        List.replicate k (Event.update (u / 1000)) ++
          [Event.render ((gameLoop u m acc delta).accumulator / u)]) ∧
    ((m : ℚ) * u < acc + delta →
      (gameLoop u m acc delta).trace =
        List.replicate m (Event.update (u / 1000)) ++
          [Event.render ((gameLoop u m acc delta).accumulator / u)]) ∧
    (∃ n ≤ m, (gameLoop u m acc delta).trace =
        List.replicate n (Event.update (u / 1000)) ++
          [Event.render ((gameLoop u m acc delta).accumulator / u)]) := by
  refine ⟨?_, ?_, ?_⟩
  · intro hkm hlo hhi
    have h := runUpdates_exact u hu k m (acc + delta) hkm hlo hhi
    simp [gameLoop, h]
  · intro hgt
    have h := runUpdates_sat u hu m (acc + delta) hgt
    simp [gameLoop, h]
  · obtain ⟨n, hn, he⟩ := runUpdates_shape u m (acc + delta)
    exact ⟨n, hn, by simp [gameLoop, he]⟩

theorem C2_update_render_decoupling_witness :
    (gameLoop 10 5 0 25).trace =
      List.replicate 2 (Event.update ((10 : ℚ) / 1000)) ++
        [Event.render ((gameLoop 10 5 0 25).accumulator / 10)] :=
  (C2_update_render_decoupling 10 5 2 0 25 (by norm_num)).1 (by norm_num)
    (by norm_num) (by norm_num)

@[simp] lemma applyForces_x (cfg : PhysicsConfig) (keys : Keys) (dt : ℚ) (t : Taxi) :
    (applyForces cfg keys dt t).x = t.x := rfl

@[simp] lemma applyForces_y (cfg : PhysicsConfig) (keys : Keys) (dt : ℚ) (t : Taxi) :
    (applyForces cfg keys dt t).y = t.y := rfl

@[simp] lemma applyForces_vx (cfg : PhysicsConfig) (keys : Keys) (dt : ℚ) (t : Taxi) :
    (applyForces cfg keys dt t).vx = newVx cfg keys dt t := rfl

@[simp] lemma applyForces_vy (cfg : PhysicsConfig) (keys : Keys) (dt : ℚ) (t : Taxi) :
    (applyForces cfg keys dt t).vy = newVy cfg keys dt t := rfl

@[simp] lemma applyForces_onGround (cfg : PhysicsConfig) (keys : Keys) (dt : ℚ) (t : Taxi) :
    (applyForces cfg keys dt t).onGround = t.onGround := rfl

@[simp] lemma applyForces_hoverMode (cfg : PhysicsConfig) (keys : Keys) (dt : ℚ) (t : Taxi) :
    (applyForces cfg keys dt t).hoverMode = t.hoverMode := rfl

@[simp] lemma applyForces_facingRight (cfg : PhysicsConfig) (keys : Keys) (dt : ℚ) (t : Taxi) :
    (applyForces cfg keys dt t).facingRight = newFacing keys t.facingRight := rfl

@[simp] lemma applyForces_landingGear (cfg : PhysicsConfig) (keys : Keys) (dt : ℚ) (t : Taxi) :
    (applyForces cfg keys dt t).landingGear = t.landingGear := rfl

@[simp] lemma integrate_x (dt : ℚ) (t : Taxi) : (integrate dt t).x = t.x + t.vx * dt := rfl

@[simp] lemma integrate_y (dt : ℚ) (t : Taxi) : (integrate dt t).y = t.y + t.vy * dt := rfl

@[simp] lemma integrate_vx (dt : ℚ) (t : Taxi) : (integrate dt t).vx = t.vx := rfl

@[simp] lemma integrate_vy (dt : ℚ) (t : Taxi) : (integrate dt t).vy = t.vy := rfl

@[simp] lemma integrate_onGround (dt : ℚ) (t : Taxi) : (integrate dt t).onGround = t.onGround := rfl

@[simp] lemma integrate_hoverMode (dt : ℚ) (t : Taxi) : (integrate dt t).hoverMode = t.hoverMode := rfl

@[simp] lemma integrate_facingRight (dt : ℚ) (t : Taxi) : (integrate dt t).facingRight = t.facingRight := rfl

@[simp] lemma integrate_landingGear (dt : ℚ) (t : Taxi) : (integrate dt t).landingGear = t.landingGear := rfl

@[simp] lemma clampX_y (env : Screen) (t : Taxi) : (clampX env t).y = t.y := by
  unfold clampX; split_ifs <;> rfl

@[simp] lemma clampX_vy (env : Screen) (t : Taxi) : (clampX env t).vy = t.vy := by
  unfold clampX; split_ifs <;> rfl

@[simp] lemma clampX_onGround (env : Screen) (t : Taxi) : (clampX env t).onGround = t.onGround := by
  unfold clampX; split_ifs <;> rfl

@[simp] lemma clampX_hoverMode (env : Screen) (t : Taxi) : (clampX env t).hoverMode = t.hoverMode := by
  unfold clampX; split_ifs <;> rfl

@[simp] lemma clampX_facingRight (env : Screen) (t : Taxi) : (clampX env t).facingRight = t.facingRight := by
  unfold clampX; split_ifs <;> rfl

@[simp] lemma clampX_landingGear (env : Screen) (t : Taxi) : (clampX env t).landingGear = t.landingGear := by
  unfold clampX; split_ifs <;> rfl

lemma clampX_x (env : Screen) (t : Taxi) :
    (clampX env t).x =
      if t.x < env.taxiWidth / 2 then env.taxiWidth / 2
      else if env.screenWidth - env.taxiWidth / 2 < t.x then env.screenWidth - env.taxiWidth / 2
      else t.x := by
  unfold clampX; split_ifs <;> rfl

lemma clampX_vx (env : Screen) (t : Taxi) :
    (clampX env t).vx =
      if t.x < env.taxiWidth / 2 then 0
      else if env.screenWidth - env.taxiWidth / 2 < t.x then 0
      else t.vx := by
  unfold clampX; split_ifs <;> rfl

@[simp] lemma clampY_x (env : Screen) (t : Taxi) : (clampY env t).x = t.x := by
  unfold clampY; split_ifs <;> rfl

@[simp] lemma clampY_vx (env : Screen) (t : Taxi) : (clampY env t).vx = t.vx := by
  unfold clampY; split_ifs <;> rfl

@[simp] lemma clampY_hoverMode (env : Screen) (t : Taxi) : (clampY env t).hoverMode = t.hoverMode := by
  unfold clampY; split_ifs <;> rfl

@[simp] lemma clampY_facingRight (env : Screen) (t : Taxi) : (clampY env t).facingRight = t.facingRight := by
  unfold clampY; split_ifs <;> rfl

@[simp] lemma clampY_landingGear (env : Screen) (t : Taxi) : (clampY env t).landingGear = t.landingGear := by
  unfold clampY; split_ifs <;> rfl

lemma clampY_y (env : Screen) (t : Taxi) :
    (clampY env t).y =
      if t.y < 0 then 0
      else if env.screenHeight - env.taxiHeight ≤ t.y then env.screenHeight - env.taxiHeight
      else t.y := by
  unfold clampY; split_ifs <;> rfl

lemma clampY_vy (env : Screen) (t : Taxi) :
    (clampY env t).vy =
      if t.y < 0 then 0
      else if env.screenHeight - env.taxiHeight ≤ t.y then 0
      else t.vy := by
  unfold clampY; split_ifs <;> rfl

lemma clampY_onGround (env : Screen) (t : Taxi) :
    (clampY env t).onGround =
      if t.y < 0 then false
      else if env.screenHeight - env.taxiHeight ≤ t.y then true
      else false := by
  unfold clampY; split_ifs <;> rfl

@[simp] lemma updateGame_hoverMode (cfg : PhysicsConfig) (env : Screen) (keys : Keys) (dt : ℚ) (t : Taxi) :
    (updateGame cfg env keys dt t).hoverMode = t.hoverMode := by
  simp [updateGame]

@[simp] lemma updateGame_landingGear (cfg : PhysicsConfig) (env : Screen) (keys : Keys) (dt : ℚ) (t : Taxi) :
    (updateGame cfg env keys dt t).landingGear = t.landingGear := by
  simp [updateGame]

@[simp] lemma damp_zero (rate dt : ℚ) : damp rate dt 0 = 0 := by
  unfold damp; norm_num

lemma damp_nonpos (rate dt v : ℚ) (h : v ≤ 0) : damp rate dt v ≤ 0 := by
  unfold damp; split_ifs <;> linarith

lemma trajectory_hoverMode (cfg : PhysicsConfig) (env : Screen) (keys : Keys) (dt : ℚ) (t : Taxi) :
    ∀ n, (trajectory cfg env keys dt t n).hoverMode = t.hoverMode := by
  intro n
  induction n with
  | zero => rfl
  | succ m ih => simp [trajectory, ih]

/-- Claim C3: whenever the integrated (pre-collision) position of one
updateGame call crosses a screen boundary on an axis, the post-update
position on that axis equals exactly that boundary value and the
corresponding velocity component is exactly zero; in particular a taxi at
x = halfWidth - 5 with vx = -50 and no horizontal keys held ends one update
with x = halfWidth and vx = 0, for every positive dt.  The sprite is
assumed to fit on the screen, so that the clamp intervals are well formed. -/
theorem C3_boundary_inelastic (cfg : PhysicsConfig) (env : Screen) (keys : Keys) (dt : ℚ) (t : Taxi)
    (hdt : 0 < dt) (hW : env.taxiWidth ≤ env.screenWidth) (hH : env.taxiHeight ≤ env.screenHeight) :
    ((integrate dt (applyForces cfg keys dt t)).x < env.taxiWidth / 2 →
      (updateGame cfg env keys dt t).x = env.taxiWidth / 2 ∧
        (updateGame cfg env keys dt t).vx = 0) ∧
    (env.screenWidth - env.taxiWidth / 2 < (integrate dt (applyForces cfg keys dt t)).x →
      (updateGame cfg env keys dt t).x = env.screenWidth - env.taxiWidth / 2 ∧
        (updateGame cfg env keys dt t).vx = 0) ∧
    ((integrate dt (applyForces cfg keys dt t)).y < 0 →
      (updateGame cfg env keys dt t).y = 0 ∧
        (updateGame cfg env keys dt t).vy = 0) ∧
    (env.screenHeight - env.taxiHeight ≤ (integrate dt (applyForces cfg keys dt t)).y →
      (updateGame cfg env keys dt t).y = env.screenHeight - env.taxiHeight ∧
        (updateGame cfg env keys dt t).vy = 0) ∧
    (keys.a = false → keys.d = false → t.x = env.taxiWidth / 2 - 5 → t.vx = -50 →
      (updateGame cfg env keys dt t).x = env.taxiWidth / 2 ∧
        (updateGame cfg env keys dt t).vx = 0) := by
  have hxeq : ∀ s : Taxi, s.x < env.taxiWidth / 2 →
      (clampY env (clampX env s)).x = env.taxiWidth / 2 ∧ (clampY env (clampX env s)).vx = 0 := by
    intro s hs
    rw [clampY_x, clampY_vx, clampX_x, clampX_vx, if_pos hs, if_pos hs]
    exact ⟨rfl, rfl⟩
  refine ⟨?_, ?_, ?_, ?_, ?_⟩
  · intro hx
    exact hxeq (integrate dt (applyForces cfg keys dt t)) hx
  · intro hx
    have hnl : ¬ ((integrate dt (applyForces cfg keys dt t)).x < env.taxiWidth / 2) := by
      intro hlt; linarith
    have hgoal : (clampY env (clampX env (integrate dt (applyForces cfg keys dt t)))).x =
          env.screenWidth - env.taxiWidth / 2 ∧
        (clampY env (clampX env (integrate dt (applyForces cfg keys dt t)))).vx = 0 := by
      rw [clampY_x, clampY_vx, clampX_x, clampX_vx, if_neg hnl, if_neg hnl, if_pos hx, if_pos hx]
      exact ⟨rfl, rfl⟩
    exact hgoal
  · intro hy
    have hy2 : (clampX env (integrate dt (applyForces cfg keys dt t))).y < 0 := by
      rw [clampX_y]; exact hy
    have hgoal : (clampY env (clampX env (integrate dt (applyForces cfg keys dt t)))).y = 0 ∧
        (clampY env (clampX env (integrate dt (applyForces cfg keys dt t)))).vy = 0 := by
      rw [clampY_y, clampY_vy, if_pos hy2, if_pos hy2]
      exact ⟨rfl, rfl⟩
    exact hgoal
  · intro hy
    have hy2 : env.screenHeight - env.taxiHeight ≤
        (clampX env (integrate dt (applyForces cfg keys dt t))).y := by
      rw [clampX_y]; exact hy
    have hnl : ¬ ((clampX env (integrate dt (applyForces cfg keys dt t))).y < 0) := by
      rw [clampX_y]; intro hlt; linarith
    have hgoal : (clampY env (clampX env (integrate dt (applyForces cfg keys dt t)))).y =
          env.screenHeight - env.taxiHeight ∧
        (clampY env (clampX env (integrate dt (applyForces cfg keys dt t)))).vy = 0 := by
      rw [clampY_y, clampY_vy, if_neg hnl, if_neg hnl, if_pos hy2, if_pos hy2]
      exact ⟨rfl, rfl⟩
    exact hgoal
  · intro ha hd hx hvx
    have hv1 : newVx cfg keys dt t ≤ 0 := by
      unfold newVx
      simp only [ha, hd, Bool.false_eq_true, if_false]
      by_cases hm : t.hoverMode = true
      · simp only [hm, if_true]
        exact damp_nonpos cfg.hoverDamping dt t.vx (by rw [hvx]; norm_num)
      · simp only [Bool.not_eq_true] at hm
        simp only [hm, Bool.false_eq_true, if_false, hvx]
        norm_num
    have hxi : (integrate dt (applyForces cfg keys dt t)).x < env.taxiWidth / 2 := by
      have hmul : newVx cfg keys dt t * dt ≤ 0 :=
        mul_nonpos_of_nonpos_of_nonneg hv1 (le_of_lt hdt)
      simp only [integrate_x, applyForces_x, applyForces_vx, hx]
      linarith
    exact hxeq (integrate dt (applyForces cfg keys dt t)) hxi

theorem C3_boundary_inelastic_witness :
    (updateGame testCfg testEnv noKeys (1/60) leftTaxi).x = 32 ∧
    (updateGame testCfg testEnv noKeys (1/60) leftTaxi).vx = 0 := by
  have h := (C3_boundary_inelastic testCfg testEnv noKeys (1/60) leftTaxi
    (by norm_num) (by norm_num [testEnv]) (by norm_num [testEnv])).2.2.2.2
    rfl rfl (by norm_num [leftTaxi, testEnv]) rfl
  have h32 : testEnv.taxiWidth / 2 = (32 : ℚ) := by norm_num [testEnv]
  rw [h32] at h
  exact h

/-- Claim C4: updateGame is a pure function of the prior taxi state, the
held-key set, the configuration, the screen and sprite dimensions, and dt;
two runs of the same sequence of update calls from equal initial states
produce identical position and velocity trajectories. -/
theorem C4_fixed_step_determinism (cfg : PhysicsConfig) (env : Screen) (keys : Keys) (dt : ℚ)
    (t1 t2 : Taxi) (h : t1 = t2) :
    ∀ n, ((trajectory cfg env keys dt t1 n).x, (trajectory cfg env keys dt t1 n).y,
          (trajectory cfg env keys dt t1 n).vx, (trajectory cfg env keys dt t1 n).vy) =
         ((trajectory cfg env keys dt t2 n).x, (trajectory cfg env keys dt t2 n).y,
          (trajectory cfg env keys dt t2 n).vx, (trajectory cfg env keys dt t2 n).vy) := by
  subst h
  intro n
  rfl

theorem C4_fixed_step_determinism_witness :
    ((trajectory testCfg testEnv keysWD (1/60) movingTaxi 7).x,
     (trajectory testCfg testEnv keysWD (1/60) movingTaxi 7).y,
     (trajectory testCfg testEnv keysWD (1/60) movingTaxi 7).vx,
     (trajectory testCfg testEnv keysWD (1/60) movingTaxi 7).vy) =
    ((trajectory testCfg testEnv keysWD (1/60) movingTaxi 7).x,
     (trajectory testCfg testEnv keysWD (1/60) movingTaxi 7).y,
     (trajectory testCfg testEnv keysWD (1/60) movingTaxi 7).vx,
     (trajectory testCfg testEnv keysWD (1/60) movingTaxi 7).vy) :=
  C4_fixed_step_determinism testCfg testEnv keysWD (1/60) movingTaxi movingTaxi rfl 7

/-- Claim C5: in hover mode with the hoverThrust config null (auto-derived
as gravity * pixelsPerMeter), a taxi with vy = 0 and no keys held, staying
strictly inside the vertical range, has vy exactly 0 (and an unchanged y)
after every physics update, for any dt. -/
theorem C5_hover_steady_state (cfg : PhysicsConfig) (env : Screen) (keys : Keys) (t : Taxi)
    (hthrust : cfg.hoverThrust = none) (hmode : t.hoverMode = true)
    (hw : keys.w = false) (hs : keys.s = false)
    (hvy : t.vy = 0) (hy0 : 0 < t.y) (hyb : t.y < env.screenHeight - env.taxiHeight) (dt : ℚ) :
    ∀ n, (trajectory cfg env keys dt t n).vy = 0 ∧ (trajectory cfg env keys dt t n).y = t.y := by
  intro n
  induction n with
  | zero => exact ⟨hvy, rfl⟩
  | succ m ih =>
    obtain ⟨hv, hy⟩ := ih
    have hm : (trajectory cfg env keys dt t m).hoverMode = true := by
      rw [trajectory_hoverMode]; exact hmode
    have hnv : newVy cfg keys dt (trajectory cfg env keys dt t m) = 0 := by
      simp [newVy, hm, hthrust, hw, hs, hv]
    have hwy : (clampX env (integrate dt (applyForces cfg keys dt (trajectory cfg env keys dt t m)))).y = t.y := by
      simp [hnv, hy]
    have hc1 : ¬ ((clampX env (integrate dt (applyForces cfg keys dt (trajectory cfg env keys dt t m)))).y < 0) := by
      rw [hwy]; intro hlt; linarith
    have hc2 : ¬ (env.screenHeight - env.taxiHeight ≤
        (clampX env (integrate dt (applyForces cfg keys dt (trajectory cfg env keys dt t m)))).y) := by
      rw [hwy]; intro hle; linarith
    constructor
    · have hgoal : (clampY env (clampX env (integrate dt (applyForces cfg keys dt
          (trajectory cfg env keys dt t m))))).vy = 0 := by
        rw [clampY_vy, if_neg hc1, if_neg hc2]
        simp [hnv]
      exact hgoal
    · have hgoal : (clampY env (clampX env (integrate dt (applyForces cfg keys dt
          (trajectory cfg env keys dt t m))))).y = t.y := by
        rw [clampY_y, if_neg hc1, if_neg hc2]
        exact hwy
      exact hgoal

theorem C5_hover_steady_state_witness :
    (trajectory testCfg testEnv noKeys (1/60) hoverTaxi 10).vy = 0 :=
  ((C5_hover_steady_state testCfg testEnv noKeys hoverTaxi rfl rfl rfl rfl rfl
    (by norm_num [hoverTaxi]) (by norm_num [hoverTaxi, testEnv]) (1/60)) 10).1

/-- Claim C10: updateGame mutates only x, y, vx, vy, onGround and
facingRight; it never changes hoverMode or landingGear, and when neither
the a key nor the d key is held, facingRight is also unchanged. -/
theorem C10_frame_condition (cfg : PhysicsConfig) (env : Screen) (keys : Keys) (dt : ℚ) (t : Taxi) :
    (updateGame cfg env keys dt t).hoverMode = t.hoverMode ∧
    (updateGame cfg env keys dt t).landingGear = t.landingGear ∧
    (keys.a = false → keys.d = false →
      (updateGame cfg env keys dt t).facingRight = t.facingRight) := by
  refine ⟨updateGame_hoverMode cfg env keys dt t, updateGame_landingGear cfg env keys dt t, ?_⟩
  intro ha hd
  simp [updateGame, newFacing, ha, hd]

theorem C10_frame_condition_witness :
    (updateGame testCfg testEnv { w := true, s := false, a := false, d := false } (1/60)
      { x := 960, y := 540, vx := 0, vy := 0, onGround := false, hoverMode := true
        facingRight := true, landingGear := true }).facingRight = true :=
  (C10_frame_condition testCfg testEnv { w := true, s := false, a := false, d := false } (1/60)
    { x := 960, y := 540, vx := 0, vy := 0, onGround := false, hoverMode := true
      facingRight := true, landingGear := true }).2.2 rfl rfl

lemma regular_idle_traj (cfg : PhysicsConfig) (env : Screen) (keys : Keys) (t : Taxi)
    (hg : cfg.gravity = 981/100) (hp : cfg.pixelsPerMeter = 100) (hr : cfg.regularFlightThrust = 500)
    (hm : t.hoverMode = false) (hw : keys.w = false) (hs : keys.s = false) (hvy : t.vy = 0)
    (hy0 : 0 < t.y) (hyB : t.y + 29341/120 < env.screenHeight - env.taxiHeight) :
    ∀ n, n ≤ 60 →
      (trajectory cfg env keys (1/60) t n).vy = 481 * (n : ℚ) / 60 ∧
      (trajectory cfg env keys (1/60) t n).y = t.y + 481 * ((n : ℚ) * ((n : ℚ) + 1)) / 7200 := by
  intro n
  induction n with
  | zero =>
    intro _
    constructor
    · simpa [trajectory] using hvy
    · simp [trajectory]
  | succ m ih =>
    intro hm60
    obtain ⟨hvym, hym⟩ := ih (by omega)
    have hmode : (trajectory cfg env keys (1/60) t m).hoverMode = false := by
      rw [trajectory_hoverMode]; exact hm
    have hm0 : (0 : ℚ) ≤ (m : ℚ) := Nat.cast_nonneg m
    have hmle : (m : ℚ) ≤ 59 := by
      have h59 : m ≤ 59 := by omega
      exact_mod_cast h59
    have hnv : newVy cfg keys (1/60) (trajectory cfg env keys (1/60) t m) = 481 * ((m : ℚ) + 1) / 60 := by
      simp only [newVy, hmode, Bool.false_eq_true, if_false, hw, hs, hg, hp, hr, hvym]
      ring
    have hyi : (integrate (1/60) (applyForces cfg keys (1/60) (trajectory cfg env keys (1/60) t m))).y
        = t.y + 481 * (((m : ℚ) + 1) * ((m : ℚ) + 2)) / 7200 := by
      simp only [integrate_y, applyForces_y, applyForces_vy, hnv, hym]
      ring
    have hP : ((m : ℚ) + 1) * ((m : ℚ) + 2) ≤ 3660 := by
      nlinarith [mul_nonneg (sub_nonneg.2 (show (m : ℚ) + 1 ≤ 60 by linarith))
        (sub_nonneg.2 (show (m : ℚ) + 2 ≤ 61 by linarith))]
    have hPl : (0 : ℚ) ≤ 481 * (((m : ℚ) + 1) * ((m : ℚ) + 2)) / 7200 := by positivity
    have hc1 : ¬ ((clampX env (integrate (1/60) (applyForces cfg keys (1/60)
        (trajectory cfg env keys (1/60) t m)))).y < 0) := by
      rw [clampX_y, hyi]; intro hlt; linarith
    have hc2 : ¬ (env.screenHeight - env.taxiHeight ≤
        (clampX env (integrate (1/60) (applyForces cfg keys (1/60)
          (trajectory cfg env keys (1/60) t m)))).y) := by
      rw [clampX_y, hyi]
      intro hle
      have h481 : 481 * (((m : ℚ) + 1) * ((m : ℚ) + 2)) / 7200 ≤ 29341/120 := by linarith
      linarith
    constructor
    · have hgoal : (clampY env (clampX env (integrate (1/60) (applyForces cfg keys (1/60)
          (trajectory cfg env keys (1/60) t m))))).vy = 481 * ((m + 1 : ℕ) : ℚ) / 60 := by
        rw [clampY_vy, if_neg hc1, if_neg hc2, clampX_vy, integrate_vy, applyForces_vy, hnv]
        push_cast
        ring
      exact hgoal
    · have hgoal : (clampY env (clampX env (integrate (1/60) (applyForces cfg keys (1/60)
          (trajectory cfg env keys (1/60) t m))))).y =
            t.y + 481 * (((m + 1 : ℕ) : ℚ) * (((m + 1 : ℕ) : ℚ) + 1)) / 7200 := by
        rw [clampY_y, if_neg hc1, if_neg hc2, clampX_y, hyi]
        push_cast
        ring
      exact hgoal

/-- Claim C6: in regular mode with no keys held and no vertical clamp, one
updateGame call changes vy by exactly
(gravity * pixelsPerMeter - regularFlightThrust) * dt; and with
gravity = 9.81, pixelsPerMeter = 100 and regularFlightThrust = 500, a taxi
starting at rest and updated 60 times with dt = 1/60 while staying clear of
the vertical boundaries ends with vy = 481 pixels per second downward, with
y strictly increasing on every tick. -/
theorem C6_regular_idle_descent :
    (∀ (cfg : PhysicsConfig) (env : Screen) (keys : Keys) (dt : ℚ) (t : Taxi),
      t.hoverMode = false → keys.w = false → keys.s = false →
      ¬ ((integrate dt (applyForces cfg keys dt t)).y < 0) →
      ¬ (env.screenHeight - env.taxiHeight ≤ (integrate dt (applyForces cfg keys dt t)).y) →
      (updateGame cfg env keys dt t).vy =
        t.vy + (cfg.gravity * cfg.pixelsPerMeter - cfg.regularFlightThrust) * dt) ∧
    (∀ (cfg : PhysicsConfig) (env : Screen) (keys : Keys) (t : Taxi),
      cfg.gravity = 981/100 → cfg.pixelsPerMeter = 100 → cfg.regularFlightThrust = 500 →
      t.hoverMode = false → keys.w = false → keys.s = false → t.vy = 0 →
      0 < t.y → t.y + 29341/120 < env.screenHeight - env.taxiHeight →
      (trajectory cfg env keys (1/60) t 60).vy = 481 ∧
      ∀ n < 60, (trajectory cfg env keys (1/60) t n).y < (trajectory cfg env keys (1/60) t (n + 1)).y) := by
  constructor
  · intro cfg env keys dt t hm hw hs hk1 hk2
    have hc1 : ¬ ((clampX env (integrate dt (applyForces cfg keys dt t))).y < 0) := by
      rw [clampX_y]; exact hk1
    have hc2 : ¬ (env.screenHeight - env.taxiHeight ≤
        (clampX env (integrate dt (applyForces cfg keys dt t))).y) := by
      rw [clampX_y]; exact hk2
    have hgoal : (clampY env (clampX env (integrate dt (applyForces cfg keys dt t)))).vy =
        t.vy + (cfg.gravity * cfg.pixelsPerMeter - cfg.regularFlightThrust) * dt := by
      rw [clampY_vy, if_neg hc1, if_neg hc2, clampX_vy, integrate_vy, applyForces_vy]
      simp only [newVy, hm, Bool.false_eq_true, if_false, hw, hs]
      ring
    exact hgoal
  · intro cfg env keys t hg hp hr hm hw hs hvy hy0 hyB
    have haux := regular_idle_traj cfg env keys t hg hp hr hm hw hs hvy hy0 hyB
    constructor
    · have h60 := (haux 60 (le_refl 60)).1
      rw [h60]
      norm_num
    · intro n hn
      have hyn := (haux n (by omega)).2
      have hyn1 := (haux (n + 1) (by omega)).2
      rw [hyn, hyn1]
      have hn0 : (0 : ℚ) ≤ (n : ℚ) := Nat.cast_nonneg n
      push_cast
      nlinarith

theorem C6_regular_idle_descent_witness :
    (trajectory testCfg testEnv noKeys (1/60) restTaxi 60).vy = 481 :=
  (C6_regular_idle_descent.2 testCfg testEnv noKeys restTaxi rfl rfl rfl rfl rfl rfl rfl
    (by norm_num [restTaxi]) (by norm_num [restTaxi, testEnv])).1

/-- Claim C7 as stated fails on degenerate dimensions: when the sprite is
exactly as tall as the screen the bottom boundary is 0, and a taxi clamped
at the top boundary ends with y equal to the bottom-boundary value while
onGround is false. -/
theorem C7_counterexample :
    ¬ (((updateGame testCfg degenEnv noKeys (1/60) aboveTaxi).onGround = true) ↔
       ((updateGame testCfg degenEnv noKeys (1/60) aboveTaxi).y =
         degenEnv.screenHeight - degenEnv.taxiHeight)) := by
  have hnv : newVy testCfg noKeys (1/60) aboveTaxi = 481/60 := by
    norm_num [newVy, testCfg, noKeys, aboveTaxi]
  have hylt : (clampX degenEnv (integrate (1/60) (applyForces testCfg noKeys (1/60) aboveTaxi))).y < 0 := by
    rw [clampX_y, integrate_y, applyForces_y, applyForces_vy, hnv]
    norm_num [aboveTaxi]
  have honG : (clampY degenEnv (clampX degenEnv (integrate (1/60)
      (applyForces testCfg noKeys (1/60) aboveTaxi)))).onGround = false := by
    rw [clampY_onGround, if_pos hylt]
  have hy : (clampY degenEnv (clampX degenEnv (integrate (1/60)
      (applyForces testCfg noKeys (1/60) aboveTaxi)))).y = 0 := by
    rw [clampY_y, if_pos hylt]
  intro hiff
  have hbot : (updateGame testCfg degenEnv noKeys (1/60) aboveTaxi).y =
      degenEnv.screenHeight - degenEnv.taxiHeight := by
    have hgoal : (updateGame testCfg degenEnv noKeys (1/60) aboveTaxi).y = 0 := hy
    rw [hgoal]
    norm_num [degenEnv]
  have hfalse : (updateGame testCfg degenEnv noKeys (1/60) aboveTaxi).onGround = true := hiff.2 hbot
  have hfalse2 : (updateGame testCfg degenEnv noKeys (1/60) aboveTaxi).onGround = false := honG
  rw [hfalse] at hfalse2
  exact Bool.noConfusion hfalse2

/-- Claim C7, amended: provided the bottom boundary screenHeight -
taxiHeight is not 0 (the sprite is not exactly as tall as the screen),
after every physics update onGround is true exactly when y equals
screenHeight - taxiHeight; in particular it is false after an
upper-boundary clamp and strictly inside the vertical range. -/
theorem C7_onGround_characterization (cfg : PhysicsConfig) (env : Screen) (keys : Keys)
    (dt : ℚ) (t : Taxi) (hne : env.screenHeight - env.taxiHeight ≠ 0) :
    ((updateGame cfg env keys dt t).onGround = true ↔
      (updateGame cfg env keys dt t).y = env.screenHeight - env.taxiHeight) := by
  have hgoal : ((clampY env (clampX env (integrate dt (applyForces cfg keys dt t)))).onGround = true ↔
      (clampY env (clampX env (integrate dt (applyForces cfg keys dt t)))).y =
        env.screenHeight - env.taxiHeight) := by
    rw [clampY_onGround, clampY_y]
    split_ifs with h1 h2
    · exact iff_of_false (by simp) (fun h => hne h.symm)
    · exact iff_of_true rfl rfl
    · exact iff_of_false (by simp) (fun h => h2 (le_of_eq h.symm))
  exact hgoal

theorem C7_onGround_characterization_witness :
    ((updateGame testCfg testEnv noKeys (1/60) restTaxi).onGround = true ↔
      (updateGame testCfg testEnv noKeys (1/60) restTaxi).y =
        testEnv.screenHeight - testEnv.taxiHeight) :=
  C7_onGround_characterization testCfg testEnv noKeys (1/60) restTaxi (by norm_num [testEnv])

lemma keyDownEvent_hoverMode_of_ne (st : SysState) (k : GKey) (hk : k ≠ GKey.h) :
    (keyDownEvent st k).taxi.hoverMode = st.taxi.hoverMode := by
  cases k <;> first
    | exact absurd rfl hk
    | (simp only [keyDownEvent]; split_ifs <;> rfl)

lemma keyUpEvent_taxi (st : SysState) (k : GKey) : (keyUpEvent st k).taxi = st.taxi := by
  cases k <;> rfl

lemma tickEvent_hoverMode (cfg : PhysicsConfig) (env : Screen) (dt : ℚ) (st : SysState) :
    (tickEvent cfg env dt st).taxi.hoverMode = st.taxi.hoverMode := by
  unfold tickEvent
  split_ifs with h
  · simp
  · rfl

/-- Claim C8: hoverMode is never changed by an update tick; a discrete
hover-key key-down event while the game is running and not paused flips it
exactly once; and any event sequence containing no hover-key key-down
events (in particular holding the key across many update ticks) leaves
hoverMode unchanged. -/
theorem C8_edge_triggered_hover_toggle (cfg : PhysicsConfig) (env : Screen) :
    (∀ (dt : ℚ) (st : SysState), (tickEvent cfg env dt st).taxi.hoverMode = st.taxi.hoverMode) ∧
    (∀ st : SysState, st.isRunning = true → st.isPaused = false →
      (keyDownEvent st GKey.h).taxi.hoverMode = !st.taxi.hoverMode) ∧
    (∀ (st : SysState) (es : List GameEvent),
      (∀ e ∈ es, e ≠ GameEvent.keyDown GKey.h) →
      (runEvents cfg env st es).taxi.hoverMode = st.taxi.hoverMode) := by
  refine ⟨tickEvent_hoverMode cfg env, ?_, ?_⟩
  · intro st hr hp
    simp [keyDownEvent, hr, hp]
  · intro st es
    induction es generalizing st with
    | nil => intro _; rfl
    | cons e es ih =>
      intro hall
      have he : e ≠ GameEvent.keyDown GKey.h := hall e (List.mem_cons_self e es)
      have hstep : (stepEvent cfg env st e).taxi.hoverMode = st.taxi.hoverMode := by
        cases e with
        | keyDown k =>
          have hk : k ≠ GKey.h := by
            intro hkh
            exact he (by rw [hkh])
          exact keyDownEvent_hoverMode_of_ne st k hk
        | keyUp k =>
          show (keyUpEvent st k).taxi.hoverMode = st.taxi.hoverMode
          rw [keyUpEvent_taxi]
        | tick dt => exact tickEvent_hoverMode cfg env dt st
      have hrest := ih (stepEvent cfg env st e) (fun x hx => hall x (List.mem_cons_of_mem e hx))
      calc (runEvents cfg env st (e :: es)).taxi.hoverMode
          = (runEvents cfg env (stepEvent cfg env st e) es).taxi.hoverMode := rfl
        _ = (stepEvent cfg env st e).taxi.hoverMode := hrest
        _ = st.taxi.hoverMode := hstep

theorem C8_edge_triggered_hover_toggle_witness :
    (keyDownEvent runningState GKey.h).taxi.hoverMode = !runningState.taxi.hoverMode :=
  (C8_edge_triggered_hover_toggle testCfg testEnv).2.1 runningState rfl rfl

/-- Claim C9 as stated is false: constructing the engine with targetUPS = 0
does not divide by zero with the zero value, because 0 is falsy in
JavaScript and the || defaulting replaces it with 60 before the division. -/
theorem C9_counterexample :
    ¬ ((mkGameEngine { targetFPS := none, targetUPS := some 0, maxFrameSkip := none }).targetUPS = 0) := by
  norm_num [mkGameEngine, numOr]

/-- Claim C9, amended: constructing the engine with targetUPS = 0 triggers
the falsy-coalescing default, so the stored targetUPS is 60 and
updateTime = 1000/60; the division by zero the claim describes never
happens with the zero value. -/
theorem C9_targetUPS_zero_defaulted :
    (mkGameEngine { targetFPS := none, targetUPS := some 0, maxFrameSkip := none }).targetUPS = 60 ∧
    (mkGameEngine { targetFPS := none, targetUPS := some 0, maxFrameSkip := none }).updateTime = 1000 / 60 := by
  constructor <;> norm_num [mkGameEngine, numOr]

end XPGame
